import Mathlib

/-!
Shallow embedding of the ToastSpeech authentication backend (src/main.py):
the JWT issuance/validation layer (`create_token`, the validation slice of
`get_current_user`) and the signup/signin/me orchestration, with the external
provider (supabase) modelled abstractly.  Time is modelled as a natural number
of seconds; `datetime.utcnow()` becomes an explicit `now : Nat` argument.
-/

namespace ToastSpeech

/-- A JSON-ish claim value as it occurs in the token payloads of main.py:
either a string (sub, email) or a number (exp, as a Unix timestamp). -/
inductive JVal where
  | str (s : String)
  | num (n : Nat)
deriving DecidableEq, Repr

/-- A Python dict of JWT claims, as an association list (insertion order,
no duplicate keys arise from the operations below). -/
abbrev Dict := List (String × JVal)

/-- Lookup in a claims dict: `payload.get(k)`. -/
def dictGet : Dict → String → Option JVal
  | [], _ => none
  | (k', v') :: rest, k => if k' = k then some v' else dictGet rest k

/-- Python dict update `{**d, k: v}`: replace the value at `k` in place if the
key is present, otherwise append the new key at the end. -/
def dictSet : Dict → String → JVal → Dict
  | [], k, v => [(k, v)]
  | (k', v') :: rest, k, v =>
      if k' = k then (k, v) :: rest else (k', v') :: dictSet rest k v

/-- Python truthiness of a claim value: empty string and zero are falsy. -/
def jvalTruthy : JVal → Bool
  | .str s => s ≠ ""
  | .num n => n ≠ 0

/-- Python truthiness of `payload.get(k)`: `None` is falsy. -/
def truthy : Option JVal → Bool
  | none => false
  | some v => jvalTruthy v

/-- Configured signing secret, `SECRET_KEY` of main.py line 19 (the
`os.getenv` default; the embedding fixes one process-wide value). -/
def SECRET_KEY : String := "super-secret-key"

/-- Fixed symmetric signing algorithm, `ALGORITHM` of main.py line 20. -/
def ALGORITHM : String := "HS256"

/-- Default token TTL in minutes, main.py line 21. -/
def ACCESS_TOKEN_EXPIRE_MINUTES : Nat := 30

/-- A signed JWT as produced by `jose.jwt.encode(payload, key, algorithm)`:
the payload together with the key and algorithm it was signed with. -/
structure Token where
  payload : Dict
  secret : String
  alg : String
deriving DecidableEq, Repr

/-- A credential presented in the Authorization header: either a blob that is
not a well-formed JWT at all, or a well-formed signed token. -/
inductive Credential where
  | malformed (raw : String)
  | token (t : Token)
deriving DecidableEq, Repr

/-- Model of `create_token(data, expires_minutes=ACCESS_TOKEN_EXPIRE_MINUTES)`,
main.py lines 85-88: `expire = utcnow() + timedelta(minutes=expires_minutes)`;
`to_encode = {**data, "exp": expire}`; sign with `SECRET_KEY` and `ALGORITHM`. -/
def create_token (data : Dict) (now : Nat)
    (expires_minutes : Nat := ACCESS_TOKEN_EXPIRE_MINUTES) : Token :=
  let expire := now + expires_minutes * 60
  let to_encode := dictSet data "exp" (JVal.num expire)
  { payload := to_encode, secret := SECRET_KEY, alg := ALGORITHM }

/-- Model of `jwt.decode(credentials, key, algorithms)` from python-jose: fails on a
malformed blob, a signature made with a different key, or an algorithm not in
the allowed list; if an `exp` claim is present it must be numeric and not in
the past (jose raises ExpiredSignatureError when `exp < now`); on success
returns the payload. -/
def jwtDecode (cred : Credential) (key : String) (algs : List String)
    (now : Nat) : Except String Dict :=
  match cred with
  | .malformed _ => .error "JWTError: Not enough segments"
  | .token t =>
      if t.secret ≠ key then .error "JWTError: Signature verification failed"
      else if t.alg ∉ algs then .error "JWTError: The specified alg value is not allowed"
      else
        match dictGet t.payload "exp" with
        | some (JVal.num e) =>
            if e < now then .error "ExpiredSignatureError: Signature has expired"
            else .ok t.payload
        | some (JVal.str _) => .error "JWTError: Expiration Time claim (exp) must be an integer"
        | none => .ok t.payload

/-- The spec's `issue(subject, email)`: the call shape used at main.py lines
151 and 176, `create_token({"sub": user_id, "email": email})` with the default
TTL. -/
def issue (subject email : String) (now : Nat) : Token :=
  create_token [("sub", JVal.str subject), ("email", JVal.str email)] now

/-- The spec's `validate(token) -> subject`: the token-validation slice of
`get_current_user` (main.py lines 92-95): decode with the shared secret and
the single allowed algorithm, read `payload.get("sub")`, and raise
`Exception("Invalid token")` when it is absent or falsy. -/
def validate (cred : Credential) (now : Nat) : Except String JVal :=
  match jwtDecode cred SECRET_KEY [ALGORITHM] now with
  | .error e => .error e
  | .ok payload =>
      match dictGet payload "sub" with
      | some v => if jvalTruthy v then .ok v else .error "Invalid token"
      | none => .error "Invalid token"

/-- A row of the supabase `users` table / the locally constructed profile dict
(main.py lines 124-135).  `created_at` is assigned by the provider and is not
part of the inserted profile. -/
structure Account where
  id : String
  name : String
  email : String
  gender : Option String := none
  age_group : Option String := none
  profession : Option String := none
  purposes : Option (List String) := none
  custom_purpose : Option String := none
  subscription_plan : String := "free"
  subscription_status : String := "active"
  created_at : Option Nat := none
deriving DecidableEq, Repr

/-- A row of the `subscription_usage` table (main.py lines 141-149). -/
structure UsageRecord where
  user_id : String
  month : Nat
  year : Nat
  speeches_limit : Nat
  speeches_used : Nat
  evaluations_limit : Nat
  evaluations_used : Nat
deriving DecidableEq, Repr

/-- A credentialed identity held by the provider's auth subsystem. -/
structure AuthUser where
  id : String
  email : String
  password : String
deriving DecidableEq, Repr

/-- The externally persisted state the orchestrator reads and writes. -/
structure DB where
  users : List Account
  subscription_usage : List UsageRecord
  auth_users : List AuthUser
deriving DecidableEq, Repr

/-- Model of `supabase.table("users").select("*").eq("id", key).single().execute()`:
supabase-py's `.single()` raises an APIError unless the query returns exactly
one row (the spec attests this: in `get_current_user` a failed lookup is
masked as an authentication failure by the surrounding try/except).  On
success `.data` is the single row, wrapped in `some`. -/
def singleExecute (users : List Account) (key : JVal) : Except String (Option Account) :=
  match users.filter (fun u => JVal.str u.id = key) with
  | [u] => .ok (some u)
  | _ => .error "APIError: JSON object requested, multiple (or no) rows returned"

/-- Response view `UserResponse` (main.py lines 59-70): all fields optional
except id, name, email. -/
structure UserResponse where
  id : String
  name : String
  email : String
  gender : Option String
  age_group : Option String
  profession : Option String
  purposes : Option (List String)
  custom_purpose : Option String
  subscription_plan : Option String
  subscription_status : Option String
  created_at : Option Nat
deriving DecidableEq, Repr

/-- Building `UserResponse(**row)` for a row read back from the users table. -/
def userResponseOfAccount (a : Account) : UserResponse :=
  { id := a.id, name := a.name, email := a.email, gender := a.gender,
    age_group := a.age_group, profession := a.profession,
    purposes := a.purposes, custom_purpose := a.custom_purpose,
    subscription_plan := some a.subscription_plan,
    subscription_status := some a.subscription_status,
    created_at := a.created_at }

/-- Response body `TokenResponse` (main.py lines 72-76). -/
structure TokenResponse where
  access_token : Token
  token_type : String
  message : String
  user : UserResponse
deriving DecidableEq, Repr

/-- Outcome of a request handler that returns a `TokenResponse`: a 200 with
the body, an `HTTPException(status, detail)`, or an unhandled exception from a
provider call (surfaced by the framework as a 500, not as any handled
status). -/
inductive TRResult where
  | ok (resp : TokenResponse)
  | httpError (status : Nat) (detail : String)
  | exn (msg : String)
deriving DecidableEq, Repr

/-- Request body `UserSignUp` (main.py lines 45-53). -/
structure UserSignUp where
  name : String
  email : String
  password : String
  gender : Option String := none
  age_group : Option String := none
  profession : Option String := none
  purposes : Option (List String) := none
  custom_purpose : Option String := none
deriving DecidableEq, Repr

/-- Request body `UserSignIn` (main.py lines 55-57). -/
structure UserSignIn where
  email : String
  password : String
deriving DecidableEq, Repr

/-- Responses of the provider calls whose outcomes main.py merely consumes:
whether `supabase.auth.admin.create_user` yields an identity (and with which
id), and whether the `subscription_usage` insert raises. -/
structure ProviderBehavior where
  createUserId : Option String
  usageInsertFails : Bool
deriving DecidableEq, Repr

/-- Result of `signup` together with the provider state it leaves behind and
the ordered list of provider calls it performed. -/
structure SignupOutcome where
  result : TRResult
  db : DB
  calls : List String
deriving DecidableEq, Repr

/-- The profile dict built at main.py lines 124-135. -/
def profileOf (user_id : String) (data : UserSignUp) : Account :=
  { id := user_id, name := data.name, email := data.email,
    gender := data.gender, age_group := data.age_group,
    profession := data.profession, purposes := data.purposes,
    custom_purpose := data.custom_purpose,
    subscription_plan := "free", subscription_status := "active",
    created_at := none }

/-- Handler for `POST /auth/signup` (main.py lines 107-158).  `now` is the current wall
clock in seconds, `month`/`year` the fields of `datetime.now()` used for the
usage row.  Provider outcomes come from `pb`. -/
def signup (db : DB) (data : UserSignUp) (pb : ProviderBehavior)
    (now month year : Nat) : SignupOutcome :=
  let existing := db.users.filter (fun u => u.email = data.email)
  let calls0 := ["select users where email"]
  if existing ≠ [] then
    ⟨.httpError 400 "Email already in use", db, calls0⟩
  else
    let calls1 := calls0 ++ ["auth.admin.create_user"]
    match pb.createUserId with
    | none => ⟨.httpError 400 "Auth creation failed", db, calls1⟩
    | some user_id =>
        let profile := profileOf user_id data
        let db1 : DB :=
          { db with
            users := db.users ++ [profile]
            auth_users := db.auth_users ++ [⟨user_id, data.email, data.password⟩] }
        let calls2 := calls1 ++ ["insert users", "insert subscription_usage"]
        if pb.usageInsertFails then
          ⟨.exn "APIError: subscription_usage insert failed", db1, calls2⟩
        else
          let usage : UsageRecord :=
            { user_id := user_id, month := month, year := year,
              speeches_limit := 1, speeches_used := 0,
              evaluations_limit := 1, evaluations_used := 0 }
          let db2 : DB := { db1 with subscription_usage := db1.subscription_usage ++ [usage] }
          let token := create_token [("sub", JVal.str user_id), ("email", JVal.str data.email)] now
          ⟨.ok { access_token := token, token_type := "bearer",
                 message := "Signup successful",
                 user := { userResponseOfAccount profile with created_at := some now } },
           db2, calls2⟩

/-- Model of `supabase.auth.sign_in_with_password` as main.py consumes it: the
returned object's `.user` field, an identity when the provider verifies
(email, password) and falsy otherwise. -/
def sign_in_with_password (auth_users : List AuthUser) (email password : String) :
    Option AuthUser :=
  auth_users.find? (fun u => u.email = email ∧ u.password = password)

/-- Handler for `POST /auth/signin` (main.py lines 160-183). -/
def signin (db : DB) (data : UserSignIn) (now : Nat) : TRResult :=
  match sign_in_with_password db.auth_users data.email data.password with
  | none => .httpError 401 "Invalid credentials"
  | some u =>
      match singleExecute db.users (JVal.str u.id) with
      | .error e => .exn e
      | .ok none => .httpError 404 "User profile not found"
      | .ok (some acct) =>
          let token := create_token [("sub", JVal.str u.id), ("email", JVal.str data.email)] now
          .ok { access_token := token, token_type := "bearer",
                message := "Signin successful",
                user := userResponseOfAccount acct }

/-- Outcome of `get_current_user` (main.py lines 90-100): either the value the
dependency returns (`result.data`), or the HTTPException 401 raised by the
catch-all `except`. -/
inductive GCUResult where
  | ok (data : Option Account)
  | http401
deriving DecidableEq, Repr

/-- Dependency `get_current_user` (main.py lines 90-100): decode the bearer token, read
`payload.get("sub")`, raise if it is absent or falsy, then look the user up
with `.single()`; every exception in the body is collapsed into
`HTTPException(401, "Invalid or expired token")`. -/
def get_current_user (db : DB) (cred : Credential) (now : Nat) : GCUResult :=
  match jwtDecode cred SECRET_KEY [ALGORITHM] now with
  | .error _ => .http401
  | .ok payload =>
      match dictGet payload "sub" with
      | none => .http401
      | some user_id =>
          if jvalTruthy user_id then
            match singleExecute db.users user_id with
            | .error _ => .http401
            | .ok d => .ok d
          else .http401

/-- Outcome of `GET /auth/me`. -/
inductive MeResult where
  | ok (user : UserResponse)
  | httpError (status : Nat) (detail : String)
  | exn (msg : String)
deriving DecidableEq, Repr

/-- Handler for `GET /auth/me` (main.py lines 185-187): `UserResponse(**current_user)`;
if the dependency ever returned `None`, that line would raise a TypeError
(an unhandled 500), but `singleExecute` never produces `.ok none`. -/
def me (db : DB) (cred : Credential) (now : Nat) : MeResult :=
  match get_current_user db cred now with
  | .http401 => .httpError 401 "Invalid or expired token"
  | .ok none => .exn "TypeError: argument after ** must be a mapping"
  | .ok (some acct) => .ok (userResponseOfAccount acct)

/-! ## Helper lemmas -/

/-- Setting a key and then reading it back yields the value just set,
whatever the dict held before. -/
theorem dictGet_dictSet (d : Dict) (k : String) (v : JVal) :
    dictGet (dictSet d k v) k = some v := by
  induction d with
  | nil => simp [dictSet, dictGet]
  | cons p rest ih =>
      obtain ⟨k', v'⟩ := p
      by_cases h : k' = k
      · simp [dictSet, dictGet, h]
      · simp [dictSet, dictGet, h, ih]

/-- Setting a fresh key leaves the other keys readable as before. -/
theorem dictGet_dictSet_ne (d : Dict) (k k' : String) (v : JVal) (h : k ≠ k') :
    dictGet (dictSet d k v) k' = dictGet d k' := by
  induction d with
  | nil => simp [dictSet, dictGet, h]
  | cons p rest ih =>
      obtain ⟨k0, v0⟩ := p
      by_cases h0 : k0 = k
      · simp [dictSet, dictGet, h0, h]
      · simp [dictSet, dictGet, h0, ih]

/-- A `.single()` lookup never succeeds with an empty `data`: the 404 branch
guarded by `if not res.data` in `signin` is unreachable. -/
theorem singleExecute_ne_ok_none (users : List Account) (key : JVal) :
    singleExecute users key ≠ Except.ok none := by
  unfold singleExecute
  cases h : users.filter (fun u => JVal.str u.id = key) with
  | nil => simp
  | cons a tl => cases tl <;> simp

/-! ## C4 -/

/-- C4: the token minted by `issue(subject, email)` with the default TTL is
signed with the shared secret and the fixed symmetric algorithm, and its
payload consists of exactly the three claims `sub`, `email` and
`exp = now + 30 minutes` — in particular no audience or issuer claim. -/
theorem issue_payload_exactly_three_claims (subject email : String) (now : Nat) :
    (issue subject email now).payload =
      [("sub", JVal.str subject), ("email", JVal.str email),
       ("exp", JVal.num (now + 30 * 60))] ∧
    (issue subject email now).secret = SECRET_KEY ∧
    (issue subject email now).alg = "HS256" ∧
    dictGet (issue subject email now).payload "aud" = none ∧
    dictGet (issue subject email now).payload "iss" = none := by
  refine ⟨rfl, rfl, rfl, rfl, rfl⟩

/-! ## C9 -/

/-- C9: whatever claims dict a caller hands to `create_token` — even one that
already carries an `exp` entry — the encoded payload's `exp` claim is the
current time plus `expires_minutes`; a caller-supplied expiry is silently
overwritten. -/
theorem create_token_overwrites_exp (data : Dict) (now expires_minutes : Nat) :
    dictGet (create_token data now expires_minutes).payload "exp" =
      some (JVal.num (now + expires_minutes * 60)) := by
  unfold create_token
  exact dictGet_dictSet data "exp" _

/-! ## C1 -/

/-- C1, counterexample: the claim quantifies over every subject, but for the
empty subject the validation path of `get_current_user` rejects the freshly
issued token (the `if not user_id` check at main.py line 94 treats the empty
string as falsy), so `validate (issue "" email)` does not return the subject
even immediately after issuance. -/
theorem validate_issue_empty_subject :
    validate (Credential.token (issue "" "a@x.com" 0)) 0 = Except.error "Invalid token" ∧
    validate (Credential.token (issue "" "a@x.com" 0)) 0 ≠ Except.ok (JVal.str "") :=
  ⟨rfl, fun hcontra => Except.noConfusion hcontra⟩

/-- Evaluation of the validation path on a freshly issued token: it is a pure
function of the issuance time, the verification time and the subject. -/
theorem validate_issue_eq (subject email : String) (t now : Nat) :
    validate (Credential.token (issue subject email t)) now =
      if t + ACCESS_TOKEN_EXPIRE_MINUTES * 60 < now then
        Except.error "ExpiredSignatureError: Signature has expired"
      else if subject = "" then Except.error "Invalid token"
      else Except.ok (JVal.str subject) := by
  have hdec : jwtDecode (Credential.token (issue subject email t)) SECRET_KEY
      [ALGORITHM] now =
      if t + ACCESS_TOKEN_EXPIRE_MINUTES * 60 < now then
        Except.error "ExpiredSignatureError: Signature has expired"
      else Except.ok [("sub", JVal.str subject), ("email", JVal.str email),
        ("exp", JVal.num (t + ACCESS_TOKEN_EXPIRE_MINUTES * 60))] := rfl
  unfold validate
  rw [hdec]
  by_cases hexp : t + ACCESS_TOKEN_EXPIRE_MINUTES * 60 < now
  · rw [if_pos hexp, if_pos hexp]
  · rw [if_neg hexp, if_neg hexp]
    by_cases hs : subject = "" <;> simp [dictGet, jvalTruthy, hs]

/-- C1, amended: for every subject that is not the empty string, and every
email, validating the token issued at time `t` returns that subject at any
instant up to the 30-minute TTL, and fails (with jose's expiry error, which
`get_current_user` maps to the single 401) at every instant strictly after
the TTL has elapsed. -/
theorem roundtrip_within_ttl (subject email : String) (t : Nat)
    (h : subject ≠ "") :
    (∀ now, now ≤ t + ACCESS_TOKEN_EXPIRE_MINUTES * 60 →
      validate (Credential.token (issue subject email t)) now =
        Except.ok (JVal.str subject)) ∧
    (∀ now, t + ACCESS_TOKEN_EXPIRE_MINUTES * 60 < now →
      validate (Credential.token (issue subject email t)) now =
        Except.error "ExpiredSignatureError: Signature has expired") := by
  constructor
  · intro now hnow
    rw [validate_issue_eq, if_neg (Nat.not_lt.mpr hnow), if_neg h]
  · intro now hnow
    rw [validate_issue_eq, if_pos hnow]

/-- C1, witness: concrete instance of the round trip for subject `u1` issued
at time 0 — valid at issuance, invalid one second after the TTL. -/
theorem roundtrip_within_ttl_witness :
    validate (Credential.token (issue "u1" "a@x.com" 0)) 0 =
      Except.ok (JVal.str "u1") ∧
    validate (Credential.token (issue "u1" "a@x.com" 0)) 1801 =
      Except.error "ExpiredSignatureError: Signature has expired" :=
  ⟨(roundtrip_within_ttl "u1" "a@x.com" 0 (by decide)).1 0 (by decide),
   (roundtrip_within_ttl "u1" "a@x.com" 0 (by decide)).2 1801 (by decide)⟩

/-! ## C2 -/

/-- Decoding a freshly issued token depends only on the issuance time, the
verification time and the embedded claims. -/
theorem jwtDecode_issue (subject email : String) (t now : Nat) :
    jwtDecode (Credential.token (issue subject email t)) SECRET_KEY
      [ALGORITHM] now =
      if t + ACCESS_TOKEN_EXPIRE_MINUTES * 60 < now then
        Except.error "ExpiredSignatureError: Signature has expired"
      else Except.ok [("sub", JVal.str subject), ("email", JVal.str email),
        ("exp", JVal.num (t + ACCESS_TOKEN_EXPIRE_MINUTES * 60))] := rfl

/-- When no account carries the looked-up id, `.single()` raises. -/
theorem singleExecute_no_match (users : List Account) (subject : String)
    (h : ∀ a ∈ users, a.id ≠ subject) :
    singleExecute users (JVal.str subject) =
      Except.error "APIError: JSON object requested, multiple (or no) rows returned" := by
  unfold singleExecute
  have hnil : users.filter (fun u => JVal.str u.id = JVal.str subject) = [] := by
    rw [List.filter_eq_nil_iff]
    intro a ha
    simp [h a ha]
  rw [hnil]

/-- C2: the three failure causes of `GET /auth/me` — a syntactically invalid
bearer blob, an expired token, and a valid unexpired token whose subject has
no matching account row — all produce the identical outward
`401 "Invalid or expired token"` response, indistinguishable to the caller. -/
theorem whoami_failures_indistinguishable (db : DB) (raw : String)
    (subject email : String) (t nowIn nowExp : Nat)
    (hs : subject ≠ "")
    (hin : nowIn ≤ t + ACCESS_TOKEN_EXPIRE_MINUTES * 60)
    (hexp : t + ACCESS_TOKEN_EXPIRE_MINUTES * 60 < nowExp)
    (hno : ∀ a ∈ db.users, a.id ≠ subject) :
    me db (Credential.malformed raw) nowIn =
      MeResult.httpError 401 "Invalid or expired token" ∧
    me db (Credential.token (issue subject email t)) nowExp =
      MeResult.httpError 401 "Invalid or expired token" ∧
    me db (Credential.token (issue subject email t)) nowIn =
      MeResult.httpError 401 "Invalid or expired token" := by
  refine ⟨rfl, ?_, ?_⟩
  · unfold me get_current_user
    rw [jwtDecode_issue, if_pos hexp]
  · unfold me get_current_user
    rw [jwtDecode_issue, if_neg (Nat.not_lt.mpr hin)]
    simp [dictGet, jvalTruthy, hs, singleExecute_no_match db.users subject hno]

/-- C2, witness: on an empty account table, a garbage credential, an expired
`u1` token and a fresh `u1` token each draw the same 401. -/
theorem whoami_failures_indistinguishable_witness :
    me ⟨[], [], []⟩ (Credential.malformed "not-a-jwt") 0 =
      MeResult.httpError 401 "Invalid or expired token" ∧
    me ⟨[], [], []⟩ (Credential.token (issue "u1" "a@x.com" 0)) 1801 =
      MeResult.httpError 401 "Invalid or expired token" ∧
    me ⟨[], [], []⟩ (Credential.token (issue "u1" "a@x.com" 0)) 0 =
      MeResult.httpError 401 "Invalid or expired token" :=
  whoami_failures_indistinguishable ⟨[], [], []⟩ "not-a-jwt" "u1" "a@x.com" 0 0 1801
    (by decide) (by decide) (by decide) (by simp)

/-! ## C3 -/

/-- C3: a signup whose email already has an account row is rejected with
`400 "Email already in use"`, the external state is left untouched, and the
provider's create-identity call is never made. -/
theorem signup_duplicate_email_rejected (db : DB) (data : UserSignUp)
    (pb : ProviderBehavior) (now month year : Nat)
    (hdup : ∃ u ∈ db.users, u.email = data.email) :
    (signup db data pb now month year).result =
      TRResult.httpError 400 "Email already in use" ∧
    (signup db data pb now month year).db = db ∧
    "auth.admin.create_user" ∉ (signup db data pb now month year).calls := by
  obtain ⟨u, hu, he⟩ := hdup
  have hne : db.users.filter (fun v => v.email = data.email) ≠ [] := by
    intro hnil
    have hmem : u ∈ db.users.filter (fun v => v.email = data.email) :=
      List.mem_filter.mpr ⟨hu, by simp [he]⟩
    rw [hnil] at hmem
    exact List.not_mem_nil u hmem
  refine ⟨?_, ?_, ?_⟩ <;> simp [signup, hne]

/-- C3, witness: concrete duplicate signup against a one-account table. -/
theorem signup_duplicate_email_rejected_witness :
    (signup ⟨[{ id := "u0", name := "B", email := "a@x.com" }], [], []⟩
        { name := "A", email := "a@x.com", password := "pw1" }
        ⟨some "user-1", false⟩ 0 6 2025).result =
      TRResult.httpError 400 "Email already in use" ∧
    (signup ⟨[{ id := "u0", name := "B", email := "a@x.com" }], [], []⟩
        { name := "A", email := "a@x.com", password := "pw1" }
        ⟨some "user-1", false⟩ 0 6 2025).db =
      ⟨[{ id := "u0", name := "B", email := "a@x.com" }], [], []⟩ ∧
    "auth.admin.create_user" ∉
      (signup ⟨[{ id := "u0", name := "B", email := "a@x.com" }], [], []⟩
        { name := "A", email := "a@x.com", password := "pw1" }
        ⟨some "user-1", false⟩ 0 6 2025).calls :=
  signup_duplicate_email_rejected _ _ _ 0 6 2025
    ⟨{ id := "u0", name := "B", email := "a@x.com" }, by simp, rfl⟩

/-! ## C5 -/

/-- C5, evidence: with one provider identity `u1` for `a@x.com` and an empty
users table, a wrong password yields `401 "Invalid credentials"`, but correct
credentials followed by the missing account row do NOT yield a 404: the
`.single()` lookup raises an APIError that `signin` does not catch, so the
request surfaces as an unhandled provider error (a 500), and the
`if not res.data` branch guarding the 404 never runs. -/
theorem signin_wrong_password_vs_missing_account :
    signin ⟨[], [], [⟨"u1", "a@x.com", "pw1"⟩]⟩ ⟨"a@x.com", "bad"⟩ 0 =
      TRResult.httpError 401 "Invalid credentials" ∧
    signin ⟨[], [], [⟨"u1", "a@x.com", "pw1"⟩]⟩ ⟨"a@x.com", "pw1"⟩ 0 =
      TRResult.exn "APIError: JSON object requested, multiple (or no) rows returned" :=
  ⟨rfl, rfl⟩

/-! ## C6 -/

/-- C6: a successful signup (fresh email, provider yields identity `uid`, no
insert failure) appends exactly one usage row to `subscription_usage`, keyed
by the new account id and the current month and year, with the fixed default
counters 1/0/1/0. -/
theorem signup_creates_initial_usage_record (db : DB) (data : UserSignUp)
    (pb : ProviderBehavior) (uid : String) (now month year : Nat)
    (hfresh : ∀ u ∈ db.users, u.email ≠ data.email)
    (hcreate : pb.createUserId = some uid)
    (hok : pb.usageInsertFails = false) :
    (∃ resp, (signup db data pb now month year).result = TRResult.ok resp) ∧
    (signup db data pb now month year).db.subscription_usage =
      db.subscription_usage ++
        [{ user_id := uid, month := month, year := year,
           speeches_limit := 1, speeches_used := 0,
           evaluations_limit := 1, evaluations_used := 0 }] := by
  have hnil : db.users.filter (fun v => v.email = data.email) = [] :=
    List.filter_eq_nil_iff.mpr (fun u hu => by simp [hfresh u hu])
  constructor
  · have hres : (signup db data pb now month year).result = TRResult.ok
        { access_token := create_token [("sub", JVal.str uid),
            ("email", JVal.str data.email)] now,
          token_type := "bearer", message := "Signup successful",
          user := { userResponseOfAccount (profileOf uid data) with
                      created_at := some now } } := by
      simp [signup, hnil, hcreate, hok]
    exact ⟨_, hres⟩
  · simp [signup, hnil, hcreate, hok]

/-- C6, witness: concrete fresh signup in June 2025 appends the default
usage row for the new id. -/
theorem signup_creates_initial_usage_record_witness :
    (∃ resp, (signup ⟨[], [], []⟩ { name := "A", email := "a@x.com", password := "pw1" }
        ⟨some "user-1", false⟩ 0 6 2025).result = TRResult.ok resp) ∧
    (signup ⟨[], [], []⟩ { name := "A", email := "a@x.com", password := "pw1" }
        ⟨some "user-1", false⟩ 0 6 2025).db.subscription_usage =
      [] ++ [{ user_id := "user-1", month := 6, year := 2025,
               speeches_limit := 1, speeches_used := 0,
               evaluations_limit := 1, evaluations_used := 0 }] :=
  signup_creates_initial_usage_record ⟨[], [], []⟩
    { name := "A", email := "a@x.com", password := "pw1" }
    ⟨some "user-1", false⟩ "user-1" 0 6 2025 (by simp) rfl rfl

/-! ## C7 -/

/-- C7: when the usage-record insert raises, `signup` has no rollback: the
exception propagates (no handled status), the account row written in step 3
remains in the users table, and no usage row was written — the partial state
of an account without a usage record is a real outcome. -/
theorem signup_usage_failure_leaves_account (db : DB) (data : UserSignUp)
    (pb : ProviderBehavior) (uid : String) (now month year : Nat)
    (hfresh : ∀ u ∈ db.users, u.email ≠ data.email)
    (hcreate : pb.createUserId = some uid)
    (hfail : pb.usageInsertFails = true) :
    (signup db data pb now month year).result =
      TRResult.exn "APIError: subscription_usage insert failed" ∧
    (signup db data pb now month year).db.users = db.users ++ [profileOf uid data] ∧
    (signup db data pb now month year).db.subscription_usage =
      db.subscription_usage := by
  have hnil : db.users.filter (fun v => v.email = data.email) = [] :=
    List.filter_eq_nil_iff.mpr (fun u hu => by simp [hfresh u hu])
  refine ⟨?_, ?_, ?_⟩ <;> simp [signup, hnil, hcreate, hfail]

/-- C7, witness: concrete signup whose usage insert fails leaves the new
account row and an empty usage table. -/
theorem signup_usage_failure_leaves_account_witness :
    (signup ⟨[], [], []⟩ { name := "A", email := "a@x.com", password := "pw1" }
        ⟨some "user-1", true⟩ 0 6 2025).result =
      TRResult.exn "APIError: subscription_usage insert failed" ∧
    (signup ⟨[], [], []⟩ { name := "A", email := "a@x.com", password := "pw1" }
        ⟨some "user-1", true⟩ 0 6 2025).db.users =
      [] ++ [profileOf "user-1" { name := "A", email := "a@x.com", password := "pw1" }] ∧
    (signup ⟨[], [], []⟩ { name := "A", email := "a@x.com", password := "pw1" }
        ⟨some "user-1", true⟩ 0 6 2025).db.subscription_usage = ([] : List UsageRecord) :=
  signup_usage_failure_leaves_account ⟨[], [], []⟩
    { name := "A", email := "a@x.com", password := "pw1" }
    ⟨some "user-1", true⟩ "user-1" 0 6 2025 (by simp) rfl rfl

/-! ## C8 -/

/-- Whenever the pre-check filter on the email is non-empty, `signup` answers
the duplicate-email rejection, whatever the provider would have done. -/
theorem signup_dup_result (db : DB) (data : UserSignUp) (pb : ProviderBehavior)
    (now month year : Nat)
    (hne : db.users.filter (fun v => v.email = data.email) ≠ []) :
    (signup db data pb now month year).result =
      TRResult.httpError 400 "Email already in use" := by
  simp [signup, hne]

/-- C8: a signup with a fresh email succeeds (a 200 with a `TokenResponse`
carrying the freshly issued access token, token type `bearer`, and a user
view on the `free` plan with `active` status), and a second signup with the
same email against the resulting state fails with
`400 "Email already in use"`, whatever the provider would have answered it. -/
theorem signup_fresh_email_then_duplicate (db : DB) (data data2 : UserSignUp)
    (pb : ProviderBehavior) (uid : String) (now month year : Nat)
    (hfresh : ∀ u ∈ db.users, u.email ≠ data.email)
    (hcreate : pb.createUserId = some uid)
    (hok : pb.usageInsertFails = false)
    (hsame : data2.email = data.email) :
    (signup db data pb now month year).result = TRResult.ok
      { access_token := issue uid data.email now,
        token_type := "bearer", message := "Signup successful",
        user := { userResponseOfAccount (profileOf uid data) with
                    created_at := some now } } ∧
    (signup db data pb now month year).result ≠
      TRResult.httpError 400 "Email already in use" ∧
    ∀ pb2 now2 month2 year2,
      (signup (signup db data pb now month year).db data2 pb2 now2 month2 year2).result =
        TRResult.httpError 400 "Email already in use" := by
  have hnil : db.users.filter (fun v => v.email = data.email) = [] :=
    List.filter_eq_nil_iff.mpr (fun u hu => by simp [hfresh u hu])
  have hres : (signup db data pb now month year).result = TRResult.ok
      { access_token := issue uid data.email now,
        token_type := "bearer", message := "Signup successful",
        user := { userResponseOfAccount (profileOf uid data) with
                    created_at := some now } } := by
    simp [signup, issue, hnil, hcreate, hok]
  have hdb : (signup db data pb now month year).db.users =
      db.users ++ [profileOf uid data] := by
    simp [signup, hnil, hcreate, hok]
  refine ⟨hres, by rw [hres]; exact fun hcontra => TRResult.noConfusion hcontra, ?_⟩
  intro pb2 now2 month2 year2
  have hne2 : (signup db data pb now month year).db.users.filter
      (fun v => v.email = data2.email) ≠ [] := by
    rw [hdb]
    intro hcontra
    have hmem : profileOf uid data ∈
        (db.users ++ [profileOf uid data]).filter (fun v => v.email = data2.email) :=
      List.mem_filter.mpr ⟨by simp, by simp [profileOf, hsame]⟩
    rw [hcontra] at hmem
    exact List.not_mem_nil _ hmem
  exact signup_dup_result _ data2 pb2 now2 month2 year2 hne2

/-- C8, witness: signup of `{name:"A", email:"a@x.com", password:"pw1"}` on
an empty state succeeds with a bearer token and a free/active user view, and
repeating it with the same email is rejected with 400. -/
theorem signup_fresh_email_then_duplicate_witness :
    (signup ⟨[], [], []⟩ { name := "A", email := "a@x.com", password := "pw1" }
        ⟨some "user-1", false⟩ 0 6 2025).result = TRResult.ok
      { access_token := issue "user-1" "a@x.com" 0,
        token_type := "bearer", message := "Signup successful",
        user := { userResponseOfAccount
                    (profileOf "user-1" { name := "A", email := "a@x.com", password := "pw1" }) with
                    created_at := some 0 } } ∧
    (signup ⟨[], [], []⟩ { name := "A", email := "a@x.com", password := "pw1" }
        ⟨some "user-1", false⟩ 0 6 2025).result ≠
      TRResult.httpError 400 "Email already in use" ∧
    ∀ pb2 now2 month2 year2,
      (signup (signup ⟨[], [], []⟩
          { name := "A", email := "a@x.com", password := "pw1" }
          ⟨some "user-1", false⟩ 0 6 2025).db
        { name := "A", email := "a@x.com", password := "pw1" } pb2 now2 month2 year2).result =
        TRResult.httpError 400 "Email already in use" :=
  signup_fresh_email_then_duplicate ⟨[], [], []⟩
    { name := "A", email := "a@x.com", password := "pw1" }
    { name := "A", email := "a@x.com", password := "pw1" }
    ⟨some "user-1", false⟩ "user-1" 0 6 2025 (by simp) rfl rfl rfl

/-! ## C10 -/

/-- C10: any token that decodes successfully (correctly signed with the shared
secret, well-formed, unexpired) but whose payload lacks a `sub` claim or
carries a falsy one is rejected by `get_current_user` with the same
`401 "Invalid or expired token"`, for every state of the users table — the
account lookup is never reached (the outcome does not depend on `db`). -/
theorem me_falsy_sub_is_401 (payload : Dict) (now : Nat)
    (hdec : jwtDecode (Credential.token ⟨payload, SECRET_KEY, ALGORITHM⟩)
      SECRET_KEY [ALGORITHM] now = Except.ok payload)
    (hsub : truthy (dictGet payload "sub") = false) :
    ∀ db : DB,
      get_current_user db (Credential.token ⟨payload, SECRET_KEY, ALGORITHM⟩) now =
        GCUResult.http401 ∧
      me db (Credential.token ⟨payload, SECRET_KEY, ALGORITHM⟩) now =
        MeResult.httpError 401 "Invalid or expired token" := by
  intro db
  have hgcu : get_current_user db (Credential.token ⟨payload, SECRET_KEY, ALGORITHM⟩) now =
      GCUResult.http401 := by
    simp only [get_current_user, hdec]
    cases hget : dictGet payload "sub" with
    | none => rfl
    | some v =>
        rw [hget] at hsub
        simp [truthy] at hsub
        simp [hsub]
  exact ⟨hgcu, by unfold me; rw [hgcu]⟩

/-- C10, witness: a signed, unexpired token whose payload has only `email`
and `exp` claims draws the 401 on an empty users table. -/
theorem me_falsy_sub_is_401_witness :
    get_current_user ⟨[], [], []⟩
        (Credential.token ⟨[("email", JVal.str "a@x.com"), ("exp", JVal.num 1800)],
          SECRET_KEY, ALGORITHM⟩) 0 = GCUResult.http401 ∧
    me ⟨[], [], []⟩
        (Credential.token ⟨[("email", JVal.str "a@x.com"), ("exp", JVal.num 1800)],
          SECRET_KEY, ALGORITHM⟩) 0 =
      MeResult.httpError 401 "Invalid or expired token" :=
  me_falsy_sub_is_401 [("email", JVal.str "a@x.com"), ("exp", JVal.num 1800)] 0
    rfl rfl ⟨[], [], []⟩

end ToastSpeech
